import Mathlib

/-!
Shallow embedding of the native shell of the quiver diagram editor
(src/src-tauri/src/lib.rs).  The shell parses command-line arguments,
resolves an optional macro source, stores the processed configuration in a
write-once cell (`CLI_ARGS : OnceLock<ProcessedArgs>`), and exposes a small
command surface (`get_cli_args`, `close_app`, `close_app_no_output`).

Effects are made explicit: a `World` records the readable file contents, the
outcome of path canonicalization and of file writes, the two output streams,
and the requested process exit code.  Rust `Result` becomes `Except`,
`Option` stays `Option`, and the `OnceLock` write-once discipline is the
function `onceSet`.
-/

namespace QuiverShell

/-- Mirror of the Rust struct `ProcessedArgs` (processed args with file
content instead of paths): optional output file path, optional macro
content, optional base64 diagram data. -/
structure ProcessedArgs where
  output_file : Option String
  macro_content : Option String
  data : Option String
deriving Repr, DecidableEq

/-- Mirror of the Rust struct `Args` produced by the clap flag parser:
`--output-file`, `--macros`, and the positional `data` argument. -/
structure Args where
  output_file : Option String
  macros : Option String
  data : Option String
deriving Repr, DecidableEq

/-- Explicit model of the effects the shell performs.  `readFile p` is the
outcome of `std::fs::read_to_string(p)`; `canonicalize p` the outcome of
`Path::new(p).canonicalize()`; `writeResult p` is `none` when
`std::fs::write(p, _)` succeeds and `some e` when it fails with OS error
text `e`; `stdout` and `stderr` collect the printed lines; `exited` records
the exit code once the process has asked to terminate. -/
structure World where
  readFile : String → Except String String
  canonicalize : String → Except String String
  writeResult : String → Option String
  stdout : List String
  stderr : List String
  exited : Option Nat

/-- Embedding of Rust `str::starts_with`: `s` starts with the pattern `p`. -/
def startsWithStr (s p : String) : Bool :=
  p.data.isPrefixOf s.data

/-- The defensive default used by `get_cli_args` when the cell is unset:
all three fields absent. -/
def defaultProcessedArgs : ProcessedArgs :=
  { output_file := none, macro_content := none, data := none }

/-- Mirror of the command `get_cli_args`: `CLI_ARGS.get().unwrap_or(&default).clone()`.
The `Option ProcessedArgs` argument is the current content of the
`CLI_ARGS` once-cell (`none` when never set). -/
def get_cli_args (cliArgs : Option ProcessedArgs) : ProcessedArgs :=
  cliArgs.getD defaultProcessedArgs

/-- Mirror of the command `close_app(app, data)`.  Reads the once-cell: when
unset, returns the error string without touching the world.  When both an
output file and `data` are present it attempts the write; on success it
logs, marks exit code 0 and returns `ok`; on failure it prints the error
and the failed content to stderr and returns the error without exiting.
When either component is absent it just marks exit code 0 and returns
`ok`. -/
def close_app (cliArgs : Option ProcessedArgs) (data : Option String) (w : World) :
    Except String Unit × World :=
  match cliArgs with
  | none => (Except.error "CLI args not initialized", w)
  | some args =>
    match args.output_file, data with
    | some output_file, some code =>
      match w.writeResult output_file with
      | none =>
        let w1 := { w with
          readFile := fun p => if p = output_file then Except.ok code else w.readFile p,
          stdout := w.stdout ++ ["Successfully wrote output to: " ++ output_file] }
        (Except.ok (), { w1 with exited := some 0 })
      | some e =>
        let error_msg := "Failed to write to \x27" ++ output_file ++ "\x27: " ++ e
        (Except.error error_msg,
          { w with stderr :=
              w.stderr ++ [error_msg, "Content that failed to write:", code] })
    | _, _ => (Except.ok (), { w with exited := some 0 })

/-- Mirror of the command `close_app_no_output(app)`: `app.exit(0); Ok(())`,
independent of the once-cell content. -/
def close_app_no_output (cliArgs : Option ProcessedArgs) (w : World) :
    Except String Unit × World :=
  match cliArgs with
  | _ => (Except.ok (), { w with exited := some 0 })

/-- The macro-resolution block at the top of `run`.  `none` stays `none`;
a string with an `http://` or `https://` scheme is passed through
unchanged; otherwise the path is canonicalized and read, each failure
printing a diagnostic and exiting the process with status 1 (returned as
`Except.error 1` with `exited` set in the world). -/
def processMacros (macros : Option String) (w : World) :
    Except Nat (Option String) × World :=
  match macros with
  | none => (Except.ok none, w)
  | some macro_path =>
    if startsWithStr macro_path "http://" || startsWithStr macro_path "https://" then
      (Except.ok (some macro_path), w)
    else
      match w.canonicalize macro_path with
      | Except.error e =>
        (Except.error 1,
          { w with
            stderr := w.stderr ++
              ["Error: Could not find macro file \x27" ++ macro_path ++ "\x27: " ++ e],
            exited := some 1 })
      | Except.ok absolute_path =>
        match w.readFile absolute_path with
        | Except.ok content =>
          (Except.ok (some content),
            { w with stdout := w.stdout ++ ["Loaded macro file: " ++ absolute_path] })
        | Except.error e =>
          (Except.error 1,
            { w with
              stderr := w.stderr ++
                ["Error: Failed to read macro file \x27" ++ absolute_path ++ "\x27: " ++ e],
              exited := some 1 })

/-- Semantics of `OnceLock::set` on the `CLI_ARGS` cell: setting an empty
cell stores the value and reports success; setting an occupied cell leaves
the stored value unchanged and reports failure (the `Err` that
`.unwrap()` turns into a panic). -/
def onceSet (cell : Option ProcessedArgs) (v : ProcessedArgs) :
    Option ProcessedArgs × Bool :=
  match cell with
  | none => (some v, true)
  | some old => (some old, false)

/-- Result of the startup function `run`: the final content of the
`CLI_ARGS` cell, the final world, and whether `CLI_ARGS.set(..).unwrap()`
panicked. -/
structure RunState where
  cliArgs : Option ProcessedArgs
  world : World
  panicked : Bool

/-- Mirror of the startup function `run` after flag parsing, up to handing
control to the UI event loop: resolve the macro source (possibly exiting
the process), build the `ProcessedArgs`, and store them in the once-cell
with `CLI_ARGS.set(processed_args).unwrap()`.  `cliArgs0` is the content
of the cell when `run` starts (`none` in a fresh process). -/
def run (args : Args) (cliArgs0 : Option ProcessedArgs) (w : World) : RunState :=
  match processMacros args.macros w with
  | (Except.error _, w1) => { cliArgs := cliArgs0, world := w1, panicked := false }
  | (Except.ok macro_content, w1) =>
    let processed_args : ProcessedArgs :=
      { output_file := args.output_file, macro_content := macro_content, data := args.data }
    let r := onceSet cliArgs0 processed_args
    { cliArgs := r.1, world := w1, panicked := !r.2 }

/-- A concrete world for witnesses: no readable files, canonicalization
fails everywhere, every write succeeds, empty streams, process running. -/
def w0 : World :=
  { readFile := fun _ => Except.error "No such file or directory",
    canonicalize := fun _ => Except.error "No such file or directory",
    writeResult := fun _ => none,
    stdout := [], stderr := [], exited := none }

/-- A concrete world for witnesses in which every write fails with a
permission error. -/
def wFail : World :=
  { readFile := fun _ => Except.error "No such file or directory",
    canonicalize := fun _ => Except.error "No such file or directory",
    writeResult := fun _ => some "Permission denied",
    stdout := [], stderr := [], exited := none }

/-- A concrete world for witnesses holding one readable macro file:
`macros.tex` canonicalizes to `/home/user/macros.tex`, whose content is a
LaTeX macro definition. -/
def wMac : World :=
  { readFile := fun p =>
      if p = "/home/user/macros.tex" then Except.ok "\\newcommand\x7b\\x\x7d\x7by\x7d"
      else Except.error "No such file or directory",
    canonicalize := fun p =>
      if p = "macros.tex" then Except.ok "/home/user/macros.tex"
      else Except.error "No such file or directory",
    writeResult := fun _ => none,
    stdout := [], stderr := [], exited := none }

/-- Helper: whenever `processMacros` returns the error outcome, the world it
returns has requested process exit with status 1 (both failure branches set
it). -/
theorem processMacros_error_exits (m : Option String) (w : World) (n : Nat)
    (h : (processMacros m w).1 = Except.error n) :
    (processMacros m w).2.exited = some 1 := by
  cases m with
  | none => simp [processMacros] at h
  | some p =>
    by_cases hu : (startsWithStr p "http://" || startsWithStr p "https://") = true
    · simp [processMacros, hu] at h
    · rcases hc : w.canonicalize p with e | ap
      · simp [processMacros, hu, hc]
      · rcases hr : w.readFile ap with e | c
        · simp [processMacros, hu, hc, hr]
        · simp [processMacros, hu, hc, hr] at h

/-- Claim C1: for an initialized session state whose output file is present
and a present data argument, when the write succeeds `close_app` writes the
data string verbatim to the output file path (the file afterwards reads
back exactly that content), returns `ok`, and terminates the process with
exit code 0. -/
theorem close_app_writes_and_exits
    (args : ProcessedArgs) (f code : String) (w : World)
    (hf : args.output_file = some f) (hw : w.writeResult f = none) :
    (close_app (some args) (some code) w).1 = Except.ok () ∧
    (close_app (some args) (some code) w).2.readFile f = Except.ok code ∧
    (close_app (some args) (some code) w).2.exited = some 0 := by
  simp [close_app, hf, hw]

/-- Witness for C1 at the spec example: output file `/tmp/out.tex`, data
the LaTeX fragment, in a world where writes succeed. -/
theorem close_app_writes_and_exits_witness :
    (close_app (some { output_file := some "/tmp/out.tex", macro_content := none, data := none })
        (some "\\[diagram\\]") w0).1 = Except.ok () ∧
    (close_app (some { output_file := some "/tmp/out.tex", macro_content := none, data := none })
        (some "\\[diagram\\]") w0).2.readFile "/tmp/out.tex" = Except.ok "\\[diagram\\]" ∧
    (close_app (some { output_file := some "/tmp/out.tex", macro_content := none, data := none })
        (some "\\[diagram\\]") w0).2.exited = some 0 :=
  close_app_writes_and_exits
    { output_file := some "/tmp/out.tex", macro_content := none, data := none }
    "/tmp/out.tex" "\\[diagram\\]" w0 rfl rfl

/-- Claim C2: when the write fails, `close_app` returns the descriptive
error to the caller, does not terminate the process (`exited` unchanged),
emits the error message and the full intended content on the error stream,
and the file system is unchanged. -/
theorem close_app_write_failure
    (args : ProcessedArgs) (f code e : String) (w : World)
    (hf : args.output_file = some f) (hw : w.writeResult f = some e) :
    (close_app (some args) (some code) w).1 =
      Except.error ("Failed to write to \x27" ++ f ++ "\x27: " ++ e) ∧
    (close_app (some args) (some code) w).2.exited = w.exited ∧
    (close_app (some args) (some code) w).2.stderr =
      w.stderr ++ ["Failed to write to \x27" ++ f ++ "\x27: " ++ e,
        "Content that failed to write:", code] ∧
    (close_app (some args) (some code) w).2.readFile = w.readFile := by
  simp [close_app, hf, hw]

/-- Witness for C2: an unwritable output path in `wFail`; the call returns
the error, the process keeps running, and the content appears on stderr. -/
theorem close_app_write_failure_witness :
    (close_app (some { output_file := some "/tmp/out.tex", macro_content := none, data := none })
        (some "\\[diagram\\]") wFail).1 =
      Except.error ("Failed to write to \x27" ++ "/tmp/out.tex" ++ "\x27: " ++ "Permission denied") ∧
    (close_app (some { output_file := some "/tmp/out.tex", macro_content := none, data := none })
        (some "\\[diagram\\]") wFail).2.exited = wFail.exited ∧
    (close_app (some { output_file := some "/tmp/out.tex", macro_content := none, data := none })
        (some "\\[diagram\\]") wFail).2.stderr =
      wFail.stderr ++ ["Failed to write to \x27" ++ "/tmp/out.tex" ++ "\x27: " ++ "Permission denied",
        "Content that failed to write:", "\\[diagram\\]"] ∧
    (close_app (some { output_file := some "/tmp/out.tex", macro_content := none, data := none })
        (some "\\[diagram\\]") wFail).2.readFile = wFail.readFile :=
  close_app_write_failure
    { output_file := some "/tmp/out.tex", macro_content := none, data := none }
    "/tmp/out.tex" "\\[diagram\\]" "Permission denied" wFail rfl rfl

/-- Claim C3: starting with a nonexistent local macro file path (no URL
scheme, canonicalization fails), `run` writes the diagnostic to the error
stream, terminates the process with exit status 1, and the session state
remains unset. -/
theorem run_missing_macro_file
    (args : Args) (p e : String) (w : World)
    (hm : args.macros = some p)
    (hurl : (startsWithStr p "http://" || startsWithStr p "https://") = false)
    (hc : w.canonicalize p = Except.error e) :
    (run args none w).cliArgs = none ∧
    (run args none w).world.exited = some 1 ∧
    (run args none w).world.stderr =
      w.stderr ++ ["Error: Could not find macro file \x27" ++ p ++ "\x27: " ++ e] := by
  simp [run, processMacros, hm, hurl, hc]

/-- Witness for C3 at the path `/no/such/file` in `w0`, where
canonicalization fails with a not-found error. -/
theorem run_missing_macro_file_witness :
    (run { output_file := none, macros := some "/no/such/file", data := none } none w0).cliArgs
      = none ∧
    (run { output_file := none, macros := some "/no/such/file", data := none } none w0).world.exited
      = some 1 ∧
    (run { output_file := none, macros := some "/no/such/file", data := none } none w0).world.stderr
      = w0.stderr ++ ["Error: Could not find macro file \x27" ++ "/no/such/file" ++ "\x27: "
          ++ "No such file or directory"] :=
  run_missing_macro_file { output_file := none, macros := some "/no/such/file", data := none }
    "/no/such/file" "No such file or directory" w0 rfl (by decide) rfl

/-- Claim C4: the macro loader is the identity on URL-scheme inputs: for a
string starting with `http://` or `https://` it returns exactly that
string and leaves the world untouched (no file read is attempted). -/
theorem processMacros_url_passthrough
    (u : String) (w : World)
    (hurl : (startsWithStr u "http://" || startsWithStr u "https://") = true) :
    processMacros (some u) w = (Except.ok (some u), w) := by
  simp [processMacros, hurl]

/-- Witness for C4 at the spec example URL. -/
theorem processMacros_url_passthrough_witness :
    processMacros (some "https://example.com/m.tex") w0 =
      (Except.ok (some "https://example.com/m.tex"), w0) :=
  processMacros_url_passthrough "https://example.com/m.tex" w0 (by decide)

/-- Claim C5: the macro loader maps an absent source to an absent result,
and a readable local file path to exactly the full text content of the
file, printing a diagnostic naming the resolved absolute path on standard
output. -/
theorem processMacros_absent_and_file
    (p ap content : String) (w : World)
    (hurl : (startsWithStr p "http://" || startsWithStr p "https://") = false)
    (hc : w.canonicalize p = Except.ok ap)
    (hr : w.readFile ap = Except.ok content) :
    processMacros none w = (Except.ok none, w) ∧
    processMacros (some p) w =
      (Except.ok (some content),
        { w with stdout := w.stdout ++ ["Loaded macro file: " ++ ap] }) := by
  refine ⟨rfl, ?_⟩
  simp [processMacros, hurl, hc, hr]

/-- Witness for C5 in the world `wMac`, whose file `macros.tex` resolves to
`/home/user/macros.tex` and contains the LaTeX macro definition from the
spec. -/
theorem processMacros_absent_and_file_witness :
    processMacros none wMac = (Except.ok none, wMac) ∧
    processMacros (some "macros.tex") wMac =
      (Except.ok (some "\\newcommand\x7b\\x\x7d\x7by\x7d"),
        { wMac with stdout := wMac.stdout ++ ["Loaded macro file: " ++ "/home/user/macros.tex"] }) :=
  processMacros_absent_and_file "macros.tex" "/home/user/macros.tex"
    "\\newcommand\x7b\\x\x7d\x7by\x7d" wMac (by decide) rfl rfl

/-- Claim C6: before the once-cell is ever written, `get_cli_args` returns
the default `ProcessedArgs` with all three fields absent, instead of
failing. -/
theorem get_cli_args_uninitialized :
    get_cli_args none = { output_file := none, macro_content := none, data := none } :=
  rfl

/-- Claim C7: invoking `close_app` while the session state was never
initialized returns the error value and leaves the world untouched (no
process termination and no file write). -/
theorem close_app_uninitialized (data : Option String) (w : World) :
    close_app none data w = (Except.error "CLI args not initialized", w) :=
  rfl

/-- Claim C8: `close_app_no_output` returns `ok` and terminates the process
with exit code 0, for every session-state content; its error channel is
never used. -/
theorem close_app_no_output_always_exits (cliArgs : Option ProcessedArgs) (w : World) :
    (close_app_no_output cliArgs w).1 = Except.ok () ∧
    (close_app_no_output cliArgs w).2.exited = some 0 :=
  ⟨rfl, rfl⟩

/-- Claim C9: with an initialized session state, when the data argument is
absent or no output file is configured, `close_app` attempts no file write
(file contents and both streams are unchanged), returns `ok`, and
terminates the process with exit code 0. -/
theorem close_app_no_write_path
    (args : ProcessedArgs) (data : Option String) (w : World)
    (h : args.output_file = none ∨ data = none) :
    (close_app (some args) data w).1 = Except.ok () ∧
    (close_app (some args) data w).2.readFile = w.readFile ∧
    (close_app (some args) data w).2.stdout = w.stdout ∧
    (close_app (some args) data w).2.stderr = w.stderr ∧
    (close_app (some args) data w).2.exited = some 0 := by
  rcases h with h | h
  · cases data <;> simp [close_app, h]
  · cases ho : args.output_file <;> simp [close_app, h, ho]

/-- Witness for C9: output file configured but data absent; nothing is
written and the process exits with code 0. -/
theorem close_app_no_write_path_witness :
    (close_app (some { output_file := some "/tmp/out.tex", macro_content := none, data := none })
        none w0).1 = Except.ok () ∧
    (close_app (some { output_file := some "/tmp/out.tex", macro_content := none, data := none })
        none w0).2.readFile = w0.readFile ∧
    (close_app (some { output_file := some "/tmp/out.tex", macro_content := none, data := none })
        none w0).2.stdout = w0.stdout ∧
    (close_app (some { output_file := some "/tmp/out.tex", macro_content := none, data := none })
        none w0).2.stderr = w0.stderr ∧
    (close_app (some { output_file := some "/tmp/out.tex", macro_content := none, data := none })
        none w0).2.exited = some 0 :=
  close_app_no_write_path
    { output_file := some "/tmp/out.tex", macro_content := none, data := none }
    none w0 (Or.inr rfl)

/-- Claim C10: the session state is write-once with first-value-wins.
Setting an occupied cell leaves the stored value unchanged and returns the
failure that `.unwrap()` turns into a panic; a `run` started with an
occupied cell never overwrites it and either panics or had already exited
during macro loading; and within a `run` started with the cell unset (a
fresh process) the single set always succeeds, so the unwrap never
panics. -/
theorem once_lock_write_once :
    (∀ old v : ProcessedArgs, onceSet (some old) v = (some old, false)) ∧
    (∀ (args : Args) (old : ProcessedArgs) (w : World),
      (run args (some old) w).cliArgs = some old ∧
      ((run args (some old) w).panicked = true ∨
        (run args (some old) w).world.exited = some 1)) ∧
    (∀ v : ProcessedArgs, onceSet none v = (some v, true)) ∧
    (∀ (args : Args) (w : World), (run args none w).panicked = false) := by
  refine ⟨fun old v => rfl, fun args old w => ?_, fun v => rfl, fun args w => ?_⟩
  · rcases h : processMacros args.macros w with ⟨r, w1⟩
    cases r with
    | error n =>
      refine ⟨?_, Or.inr ?_⟩
      · simp [run, h]
      · have h2 := processMacros_error_exits args.macros w n (by rw [h])
        rw [h] at h2
        simpa [run, h] using h2
    | ok mc =>
      exact ⟨by simp [run, h, onceSet], Or.inl (by simp [run, h, onceSet])⟩
  · rcases h : processMacros args.macros w with ⟨r, w1⟩
    cases r <;> simp [run, h, onceSet]

end QuiverShell
